import Mathlib

/-!
Verification of the NPC policy-gated execution pipeline.

Shallow embedding of:
* `BehaviorController.sol` — policy store, call ledger and gas accounting;
* `Arena.sol` / `Quest.sol` — guarded entities with embedded authorization in
  their terminal transitions (`concludeDuel`, `completeQuest`);
* `Action.js` (`validateExecution`, `execute`) — the off-chain execution
  pipeline.

Addresses and 4-byte selectors are modelled as `Nat`; `uint256` values are
modelled as `Nat` (Solidity 0.8 reverts on overflow rather than wrapping, and
no claim here depends on wrap-around).  Role-gated functions take the caller
as an argument and return `Option`/`Except`: `none`/`.error` models an EVM
revert, in which every state change of the transaction is rolled back, so an
error result leaves the pre-state untouched by construction.
-/

namespace NPC

/-- `Policy` struct of `BehaviorController.sol` (lines 11-17). The
`mapping(bytes4 => bool) methodAllowlist` is a total function with default
`false`. -/
structure Policy where
  methodAllowlist : Nat → Bool
  gasBudget : Nat
  callRateLimit : Nat
  dailyCallLimit : Nat
  isActive : Bool

/-- `CallRecord` struct of `BehaviorController.sol` (lines 19-23). -/
structure CallRecord where
  lastCalled : Nat
  dailyCount : Nat
  lastDayReset : Nat

/-- Storage of `BehaviorController` (lines 25-27) together with the two
`AccessControl` role sets used by its modifiers (`POLICY_MANAGER_ROLE`,
`TRUSTED_CALLER_ROLE`). -/
structure BCState where
  policies : Nat → Policy
  callRecords : Nat → Nat → CallRecord
  totalGasUsed : Nat → Nat
  policyManagers : Nat → Bool
  trustedCallers : Nat → Bool

/-- One day in seconds (`1 days` in Solidity). -/
def oneDay : Nat := 86400

/-- `isAllowed` (BehaviorController.sol lines 73-76): a `view` function —
pure in this embedding, it returns a `Bool` and no updated state. -/
def isAllowed (s : BCState) (contractAddress methodSignature : Nat) : Bool :=
  let policy := s.policies contractAddress
  policy.isActive && policy.methodAllowlist methodSignature

/-- `checkGasBudget` (lines 78-80). -/
def checkGasBudget (s : BCState) (contractAddress : Nat) : Nat :=
  (s.policies contractAddress).gasBudget

/-- `getRemainingGasBudget` (lines 82-86):
`policy.gasBudget > used ? policy.gasBudget - used : 0`. -/
def getRemainingGasBudget (s : BCState) (contractAddress : Nat) : Nat :=
  let policy := s.policies contractAddress
  let used := s.totalGasUsed contractAddress
  if used < policy.gasBudget then policy.gasBudget - used else 0

/-- `checkRateLimit` (lines 88-112). `block.timestamp` is the explicit
argument `now`.  Note the early return: when the policy is inactive or
`callRateLimit == 0` the function returns `policy.isActive` at once, so in
the `callRateLimit == 0` case neither the minute check nor the daily check
is evaluated. -/
def checkRateLimit (s : BCState) (now contractAddress methodSignature : Nat) : Bool :=
  let policy := s.policies contractAddress
  if !policy.isActive || policy.callRateLimit == 0 then
    policy.isActive
  else
    let record := s.callRecords contractAddress methodSignature
    let timeSinceLastCall := now - record.lastCalled
    let minuteRateOk := decide (60 / policy.callRateLimit < timeSinceLastCall)
    let dailyLimitOk :=
      if 0 < policy.dailyCallLimit then
        if record.lastDayReset + oneDay ≤ now then
          true
        else
          decide (record.dailyCount < policy.dailyCallLimit)
      else
        true
    minuteRateOk && dailyLimitOk

/-- The call-record update of `recordCallWithGas` (lines 125-134): stamp
`lastCalled = now`; on a new day (`now >= lastDayReset + 1 days`) set
`dailyCount = 1` and `lastDayReset = now`, otherwise increment
`dailyCount`. -/
def updatedRecord (record : CallRecord) (now : Nat) : CallRecord :=
  if record.lastDayReset + oneDay ≤ now then
    { lastCalled := now, dailyCount := 1, lastDayReset := now }
  else
    { lastCalled := now, dailyCount := record.dailyCount + 1,
      lastDayReset := record.lastDayReset }

/-- The storage writes of `recordCallWithGas` (lines 123-137): the
(target, operation) record is replaced by its update and `_totalGasUsed` of
the target grows by `gasUsed`. -/
def appliedRecord (s : BCState) (now contractAddress methodSignature gasUsed : Nat) : BCState :=
  { s with
    callRecords := fun a m =>
      if a = contractAddress ∧ m = methodSignature then
        updatedRecord (s.callRecords contractAddress methodSignature) now
      else s.callRecords a m,
    totalGasUsed := fun a =>
      if a = contractAddress then s.totalGasUsed a + gasUsed else s.totalGasUsed a }

/-- `recordCallWithGas` (lines 118-140), gated by
`onlyRole(TRUSTED_CALLER_ROLE)`; `none` models the modifier's revert. -/
def recordCallWithGas (s : BCState) (now caller contractAddress methodSignature gasUsed : Nat) :
    Option BCState :=
  if !s.trustedCallers caller then
    none
  else
    some (appliedRecord s now contractAddress methodSignature gasUsed)

/-- `recordCall` (lines 114-116): delegates to `recordCallWithGas` with
`gasUsed = 0` (the `onlyRole(TRUSTED_CALLER_ROLE)` modifier applies to both,
with the same `msg.sender`). -/
def recordCall (s : BCState) (now caller contractAddress methodSignature : Nat) :
    Option BCState :=
  recordCallWithGas s now caller contractAddress methodSignature 0

/-- `setPolicy` (lines 40-61), gated by `onlyRole(POLICY_MANAGER_ROLE)`.
The loop only sets entries of `methodAllowlist` to `true`; despite the
comment in the source, nothing clears the previous allowlist, so the result
is the union of the old allowlist and `allowedMethods`.  The numeric fields
are overwritten and `isActive` is set to `true`. -/
def setPolicy (s : BCState) (caller contractAddress : Nat) (allowedMethods : List Nat)
    (gasBudget callRateLimit dailyCallLimit : Nat) : Option BCState :=
  if !s.policyManagers caller then
    none
  else
    let policy := s.policies contractAddress
    let newAllowlist :=
      allowedMethods.foldl (fun acc m => fun x => if x = m then true else acc x)
        policy.methodAllowlist
    some { s with
      policies := fun a =>
        if a = contractAddress then
          { methodAllowlist := newAllowlist, gasBudget := gasBudget,
            callRateLimit := callRateLimit, dailyCallLimit := dailyCallLimit,
            isActive := true }
        else s.policies a }

/-- `activatePolicy` (lines 63-66). -/
def activatePolicy (s : BCState) (caller contractAddress : Nat) : Option BCState :=
  if !s.policyManagers caller then
    none
  else
    some { s with
      policies := fun a =>
        if a = contractAddress then { s.policies a with isActive := true }
        else s.policies a }

/-- `deactivatePolicy` (lines 68-71): toggles `isActive` off, touching no
other field. -/
def deactivatePolicy (s : BCState) (caller contractAddress : Nat) : Option BCState :=
  if !s.policyManagers caller then
    none
  else
    some { s with
      policies := fun a =>
        if a = contractAddress then { s.policies a with isActive := false }
        else s.policies a }

/-- `DuelState` enum of `Arena.sol`. -/
inductive DuelState where
  | PENDING
  | ACTIVE
  | CONCLUDED
deriving DecidableEq

/-- `Duel` struct of `Arena.sol` (lines 14-22); `players[0]`/`players[1]`
become `player1`/`player2`. -/
structure Duel where
  player1 : Nat
  player2 : Nat
  token : Nat
  wager : Nat
  winner : Nat
  state : DuelState
  createdAt : Nat
  concludedAt : Nat

/-- `QuestState` enum of `Quest.sol`. -/
inductive QuestState where
  | OPEN
  | IN_PROGRESS
  | COMPLETED
deriving DecidableEq

/-- `QuestData` struct of `Quest.sol` (lines 14-23). -/
structure QuestData where
  creator : Nat
  participant : Nat
  token : Nat
  reward : Nat
  state : QuestState
  createdAt : Nat
  completedAt : Nat
  metadataUri : String

/-- The on-chain world the guarded entities live in: the shared
`BehaviorController` storage, the `_duels` / `_quests` mappings (Solidity
mappings return a zeroed struct for absent keys, so they are total
functions), ERC-20 balances (`balances token holder`), and the two contract
addresses. -/
structure World where
  bc : BCState
  duels : Nat → Duel
  quests : Nat → QuestData
  balances : Nat → Nat → Nat
  arenaAddr : Nat
  questAddr : Nat

/-- 4-byte selector of `Arena.concludeDuel` (`this.concludeDuel.selector`),
an arbitrary stable identifier in this embedding. -/
def concludeDuelSelector : Nat := 1

/-- 4-byte selector of `Quest.completeQuest`. -/
def completeQuestSelector : Nat := 2

/-- Balance map after moving `amount` of `token` from `src` to `dst`. -/
def transferredBal (bal : Nat → Nat → Nat) (token src dst amount : Nat) :
    Nat → Nat → Nat :=
  let afterSub : Nat → Nat → Nat := fun t a =>
    if t = token ∧ a = src then bal t a - amount else bal t a
  fun t a =>
    if t = token ∧ a = dst then afterSub t a + amount else afterSub t a

/-- A standard ERC-20 `transfer`: reverts (`none`) when the sender's balance
is insufficient, otherwise moves `amount` of `token` from `src` to `dst`. -/
def erc20Transfer (bal : Nat → Nat → Nat) (token src dst amount : Nat) :
    Option (Nat → Nat → Nat) :=
  if bal token src < amount then
    none
  else
    some (transferredBal bal token src dst amount)

/-- `Arena.concludeDuel` (Arena.sol lines 68-84).  The embedded guard first
requires `behaviorController.isAllowed(address(this), selector)`, then calls
`behaviorController.recordCall` (with `msg.sender = address(this)`, so the
Arena must hold `TRUSTED_CALLER_ROLE`), then checks the duel's own
preconditions, mutates the duel and pays `2 * wager` to the winner.  Any
`.error` is an EVM revert: no state is changed. -/
def concludeDuel (w : World) (now duelId winner : Nat) : Except String World :=
  if !(isAllowed w.bc w.arenaAddr concludeDuelSelector) then
    Except.error ("BehaviorController: Action not allowed")
  else
    match recordCall w.bc now w.arenaAddr w.arenaAddr concludeDuelSelector with
    | none => Except.error ("AccessControl: account is missing role")
    | some bc1 =>
      let duel := w.duels duelId
      if duel.state ≠ DuelState.ACTIVE then
        Except.error ("Duel not active")
      else if ¬(winner = duel.player1 ∨ winner = duel.player2) then
        Except.error ("Invalid winner")
      else
        match erc20Transfer w.balances duel.token w.arenaAddr winner (duel.wager * 2) with
        | none => Except.error ("ERC20: transfer amount exceeds balance")
        | some bal1 =>
          let newDuel : Duel :=
            { duel with winner := winner, state := DuelState.CONCLUDED, concludedAt := now }
          Except.ok { w with
            bc := bc1,
            duels := fun i => if i = duelId then newDuel else w.duels i,
            balances := bal1 }

/-- `Quest.completeQuest` (Quest.sol lines 68-82), with the same embedded
guard; `sender` is `msg.sender`.  Pays `reward` to the participant. -/
def completeQuest (w : World) (now sender questId : Nat) : Except String World :=
  if !(isAllowed w.bc w.questAddr completeQuestSelector) then
    Except.error ("BehaviorController: Action not allowed")
  else
    match recordCall w.bc now w.questAddr w.questAddr completeQuestSelector with
    | none => Except.error ("AccessControl: account is missing role")
    | some bc1 =>
      let quest := w.quests questId
      if quest.state ≠ QuestState.IN_PROGRESS then
        Except.error ("Quest not in progress")
      else if sender ≠ quest.participant then
        Except.error ("Not your quest")
      else
        match erc20Transfer w.balances quest.token w.questAddr quest.participant quest.reward with
        | none => Except.error ("ERC20: transfer amount exceeds balance")
        | some bal1 =>
          let newQuest : QuestData :=
            { quest with state := QuestState.COMPLETED, completedAt := now }
          Except.ok { w with
            bc := bc1,
            quests := fun i => if i = questId then newQuest else w.quests i,
            balances := bal1 }

/-!
The off-chain execution pipeline
(`packages/agent-runtime/dist/agent-runtime/src/Action.js`).  Contract
addresses come from `addresses.json` (a deployment artifact), modelled as a
partial map `String → Option Nat`; the method-selector derivation
(`ethers.id` keccak hash truncated to 4 bytes) is modelled as an opaque
argument `selectorOf : String → Nat`.
-/

/-- Split a character list at every occurrence of `sep`, JS
`String.prototype.split` style: `"a__b"` gives `["a", "", "b"]` and `""`
gives `[""]`. -/
def splitOnChar (sep : Char) : List Char → List (List Char)
  | [] => [[]]
  | c :: cs =>
    let rest := splitOnChar sep cs
    if c = sep then [] :: rest
    else
      match rest with
      | [] => [[c]]
      | r :: rs => (c :: r) :: rs

/-- JS `actionName.split(sep)` for a one-character separator. -/
def jsSplit (s : String) (sep : Char) : List String :=
  (splitOnChar sep s.data).map String.mk

/-- JS `String.prototype.toLowerCase` (the contract names involved are
ASCII). -/
def jsToLower (s : String) : String :=
  String.mk (s.data.map Char.toLower)

/-- A `Plan` as consumed by `Action.execute`: the `action` name
(`"Contract_method"` or `"observe"`); `params` carry no information the
modelled checks read, so they are elided. -/
structure Plan where
  action : String

/-- The `{valid, reason}` object returned by `validateExecution`. -/
structure Validation where
  valid : Bool
  reason : Option String
deriving DecidableEq

/-- Reason string of a plan whose action name does not resolve. -/
def invalidFormatMsg : String := "Invalid action format"

/-- Reason string of the `isAllowed` check failing. -/
def notAllowedMsg : String := "Action not allowed by BehaviorController"

/-- Reason string of the `checkRateLimit` check failing (the only reason any
rate or quota failure ever surfaces with). -/
def rateLimitedMsg : String := "Rate limit exceeded"

/-- Reason string of the gas-budget check failing. -/
def gasExhaustedMsg : String := "Gas budget exhausted"

/-- `parseActionName` (Action.js lines 123-142): splits on `'_'`, resolves
the lowercased contract name through `addresses`, and derives the method
selector.  JS destructuring leaves `methodName` as `undefined` when there is
no second component, which stringifies to `"undefined"` inside the
`ethers.id` template. -/
def parseActionName (addresses : String → Option Nat) (selectorOf : String → Nat)
    (actionName : String) : Option (Nat × Nat) :=
  match jsSplit actionName '_' with
  | [] => none
  | contractName :: rest =>
    match addresses (jsToLower contractName) with
    | none => none
    | some contractAddress =>
      let methodName := rest.headD ("undefined")
      some (contractAddress, selectorOf methodName)

/-- `validateExecution` (Action.js lines 90-122).  The checks run in a fixed
order with early return: resolve the action name (else
`invalidFormatMsg`), `isAllowed` (else `notAllowedMsg`), `checkRateLimit`
(else `rateLimitedMsg`), `getRemainingGasBudget == 0` (else
`gasExhaustedMsg`).  All three contract calls are `view` calls: the function
reads `bc` and returns only a verdict. -/
def validateExecution (bc : BCState) (now : Nat) (addresses : String → Option Nat)
    (selectorOf : String → Nat) (plan : Plan) : Validation :=
  if plan.action = "" ∨ plan.action = "observe" then
    { valid := true, reason := none }
  else
    match parseActionName addresses selectorOf plan.action with
    | none => { valid := false, reason := some invalidFormatMsg }
    | some (contractAddress, methodSelector) =>
      if !(isAllowed bc contractAddress methodSelector) then
        { valid := false, reason := some notAllowedMsg }
      else if !(checkRateLimit bc now contractAddress methodSelector) then
        { valid := false, reason := some rateLimitedMsg }
      else if getRemainingGasBudget bc contractAddress = 0 then
        { valid := false, reason := some gasExhaustedMsg }
      else
        { valid := true, reason := none }

/-- The `{success, error, ...}` result of `Action.execute` (the fields the
claims read). -/
structure ExecResult where
  success : Bool
  error : Option String
deriving DecidableEq

/-- `Action.execute` (Action.js lines 30-89).  `submit` stands for
`executeContractCall` + `wait` against the transaction boundary: `.ok`
yields the post-transaction world, `.error` a rejected/reverted submission
(the catch branch, which leaves the world as the revert left it — unchanged
in this single-transaction model).  `agent` is the signer address,
`measureGas` the balance-delta gas heuristic.  On validation failure the
function returns before `submit` is ever consulted and before any ledger
mutation.  After a confirmed submission, `recordCallWithGas` is invoked
best-effort: a `none` (revert) there is swallowed (logged only). -/
def execute (addresses : String → Option Nat) (selectorOf : String → Nat)
    (submit : Plan → World → Except String World) (agent : Nat)
    (measureGas : World → World → Nat) (w : World) (now : Nat) (plan : Plan) :
    ExecResult × World :=
  if plan.action = "observe" then
    ({ success := true, error := none }, w)
  else
    let validation := validateExecution w.bc now addresses selectorOf plan
    if !validation.valid then
      ({ success := false,
         error := some ("Validation failed: " ++ validation.reason.getD "") }, w)
    else
      match submit plan w with
      | Except.error e => ({ success := false, error := some e }, w)
      | Except.ok w1 =>
        let gasUsed := measureGas w w1
        let w2 :=
          match parseActionName addresses selectorOf plan.action with
          | none => w1
          | some (contractAddress, methodSelector) =>
            match recordCallWithGas w1.bc now agent contractAddress methodSelector gasUsed with
            | none => w1
            | some bc1 => { w1 with bc := bc1 }
        ({ success := true, error := none }, w2)

/-!  Concrete fixtures used by counterexamples and witnesses. -/

/-- Concrete `BehaviorController` state builder: every target shares policy
`p`, every (target, operation) pair shares record `r`, no gas used yet, and
every address holds both roles (roles are not at issue in the concrete
evaluations). -/
def mkState (p : Policy) (r : CallRecord) : BCState :=
  { policies := fun _ => p, callRecords := fun _ _ => r,
    totalGasUsed := fun _ => 0,
    policyManagers := fun _ => true, trustedCallers := fun _ => true }

/-- Active policy with `callRateLimit = 0` and `dailyCallLimit = 1`,
everything allowlisted. -/
def polUnthrottled : Policy :=
  { methodAllowlist := fun _ => true, gasBudget := 1000, callRateLimit := 0,
    dailyCallLimit := 1, isActive := true }

/-- Call record whose daily count already exceeds the daily limit of
`polUnthrottled`, inside the current 24h window at time 100. -/
def recExhausted : CallRecord :=
  { lastCalled := 0, dailyCount := 5, lastDayReset := 0 }

/-- Call record whose 24h window (started at 0) has long expired by time
200000. -/
def recStale : CallRecord :=
  { lastCalled := 0, dailyCount := 3, lastDayReset := 0 }

/-- Claim C5: `isAllowed(target, operation)` is true iff the target's policy
is active and the operation is in its allowlist; in particular it is false
whenever `active = false`.  (`isAllowed` is a `view` function: in this
embedding it is a pure function of the state, returning no updated state, so
it has no side effects by construction.) -/
theorem isAllowed_iff_active_and_allowlisted :
    ∀ (s : BCState) (ca sel : Nat),
      (isAllowed s ca sel = true ↔
        (s.policies ca).isActive = true ∧ (s.policies ca).methodAllowlist sel = true) ∧
      ((s.policies ca).isActive = false → isAllowed s ca sel = false) := by
  intro s ca sel
  constructor
  · simp [isAllowed]
  · intro h
    simp [isAllowed, h]

/-- Witness for C5: on a concrete inactive-but-fully-allowlisted state,
`isAllowed` evaluates to `false`. -/
theorem isAllowed_iff_active_and_allowlisted_witness :
    isAllowed (mkState { polUnthrottled with isActive := false } recExhausted) 0 0 = false :=
  (isAllowed_iff_active_and_allowlisted
    (mkState { polUnthrottled with isActive := false } recExhausted) 0 0).2 (by decide)

/-- Counterexample to claim C1: a state satisfying every hypothesis of the
claim's concrete scenario — active policy, `callRateLimit = 0`,
`dailyCallLimit > 0`, `dailyCount ≥ dailyCallLimit`, and
`now < windowStart + 86400` — on which `checkRateLimit` returns `true`,
not `false`: the `callRateLimit == 0` early return skips the daily check. -/
theorem checkRateLimit_zero_rate_skips_daily_cex :
    ((mkState polUnthrottled recExhausted).policies 0).isActive = true ∧
    ((mkState polUnthrottled recExhausted).policies 0).callRateLimit = 0 ∧
    0 < ((mkState polUnthrottled recExhausted).policies 0).dailyCallLimit ∧
    ((mkState polUnthrottled recExhausted).policies 0).dailyCallLimit ≤
      ((mkState polUnthrottled recExhausted).callRecords 0 0).dailyCount ∧
    (100 : Nat) < ((mkState polUnthrottled recExhausted).callRecords 0 0).lastDayReset + oneDay ∧
    checkRateLimit (mkState polUnthrottled recExhausted) 100 0 0 = true := by
  decide

/-- Case analysis of `checkRateLimit`, shared by several claims: `false`
when inactive; `true` unconditionally when active with `callRateLimit = 0`;
the minute-and-daily conjunction when `callRateLimit > 0`. -/
theorem checkRateLimit_cases :
    ∀ (s : BCState) (now ca sel : Nat),
      ((s.policies ca).isActive = false → checkRateLimit s now ca sel = false) ∧
      ((s.policies ca).isActive = true → (s.policies ca).callRateLimit = 0 →
        checkRateLimit s now ca sel = true) ∧
      ((s.policies ca).isActive = true → 0 < (s.policies ca).callRateLimit →
        (checkRateLimit s now ca sel = true ↔
          (60 / (s.policies ca).callRateLimit < now - (s.callRecords ca sel).lastCalled ∧
           ((s.policies ca).dailyCallLimit = 0 ∨
            (s.callRecords ca sel).lastDayReset + oneDay ≤ now ∨
            (s.callRecords ca sel).dailyCount < (s.policies ca).dailyCallLimit)))) := by
  intro s now ca sel
  refine ⟨fun h => ?_, fun h hrl => ?_, fun h hrl => ?_⟩
  · simp [checkRateLimit, h]
  · simp [checkRateLimit, h, hrl]
  · have hne : ((s.policies ca).callRateLimit == 0) = false := by
      simp [Nat.pos_iff_ne_zero.mp hrl]
    simp only [checkRateLimit, h, hne, Bool.not_true, Bool.false_or, if_neg Bool.false_ne_true]
    by_cases hdl : 0 < (s.policies ca).dailyCallLimit
    · by_cases hwin : (s.callRecords ca sel).lastDayReset + oneDay ≤ now
      · simp [hdl, hwin]
      · simp [hdl, hwin]
        omega
    · simp [hdl]
      omega

/-- Claim C1 as amended: `checkRateLimit` returns `false` when the policy is
inactive; when the policy is active and `callRateLimit = 0` it returns
`true` unconditionally (the daily check is skipped along with the minute
check); only when `callRateLimit > 0` does it return the conjunction of the
minute check and the daily check. -/
theorem checkRateLimit_characterization :
    ∀ (s : BCState) (now ca sel : Nat),
      ((s.policies ca).isActive = false → checkRateLimit s now ca sel = false) ∧
      ((s.policies ca).isActive = true → (s.policies ca).callRateLimit = 0 →
        checkRateLimit s now ca sel = true) ∧
      ((s.policies ca).isActive = true → 0 < (s.policies ca).callRateLimit →
        (checkRateLimit s now ca sel = true ↔
          (60 / (s.policies ca).callRateLimit < now - (s.callRecords ca sel).lastCalled ∧
           ((s.policies ca).dailyCallLimit = 0 ∨
            (s.callRecords ca sel).lastDayReset + oneDay ≤ now ∨
            (s.callRecords ca sel).dailyCount < (s.policies ca).dailyCallLimit)))) :=
  checkRateLimit_cases

/-- Witness for the amended C1: concrete instantiations of all three cases
of `checkRateLimit_characterization`. -/
theorem checkRateLimit_characterization_witness :
    checkRateLimit (mkState { polUnthrottled with isActive := false } recExhausted) 100 0 0
      = false ∧
    checkRateLimit (mkState polUnthrottled recExhausted) 100 0 0 = true ∧
    checkRateLimit (mkState { polUnthrottled with callRateLimit := 10 } recExhausted) 100 0 0
      = false := by
  refine ⟨?_, ?_, ?_⟩
  · exact (checkRateLimit_characterization
      (mkState { polUnthrottled with isActive := false } recExhausted) 100 0 0).1 (by decide)
  · exact (checkRateLimit_characterization
      (mkState polUnthrottled recExhausted) 100 0 0).2.1 (by decide) (by decide)
  · have h := (checkRateLimit_characterization
      (mkState { polUnthrottled with callRateLimit := 10 } recExhausted) 100 0 0).2.2
      (by decide) (by decide)
    rw [Bool.eq_false_iff]
    intro hc
    rcases (h.mp hc).2 with h1 | h1 | h1 <;> revert h1 <;> decide

/-- Counterexample to claim C3: a resetting `recordCallWithGas` (the 24h
window started at 0 and the call arrives at 200000 ≥ 86400) stores
`lastDayReset = 200000`, the call's own timestamp, which is not one 24h
step (86400) past the previous window start; `dailyCount` does become 1. -/
theorem recordCall_reset_cex :
    ((mkState polUnthrottled recStale).callRecords 0 0).lastDayReset + oneDay ≤ 200000 ∧
    ((recordCallWithGas (mkState polUnthrottled recStale) 200000 7 0 0 0).map
      (fun t => ((t.callRecords 0 0).lastDayReset, (t.callRecords 0 0).dailyCount)))
      = some (200000, 1) ∧
    (200000 : Nat) ≠ ((mkState polUnthrottled recStale).callRecords 0 0).lastDayReset + oneDay := by
  decide

/-- Claim C3 as amended: a `recordCallWithGas` arriving at
`now ≥ windowStart + 86400` (a resetting call, by a trusted caller) stores
`lastCalled = now`, `dailyCount = 1` (not 0), and `lastDayReset = now` — the
window start jumps to the resetting call's timestamp, not to
`windowStart + 86400`. -/
theorem recordCall_reset_amended :
    ∀ (s : BCState) (now caller ca sel gas : Nat),
      s.trustedCallers caller = true →
      (s.callRecords ca sel).lastDayReset + oneDay ≤ now →
      (recordCallWithGas s now caller ca sel gas).map
        (fun t => ((t.callRecords ca sel).lastCalled, (t.callRecords ca sel).dailyCount,
                   (t.callRecords ca sel).lastDayReset)) = some (now, 1, now) := by
  intro s now caller ca sel gas ht hreset
  simp [recordCallWithGas, appliedRecord, updatedRecord, ht, hreset]

/-- Witness for the amended C3: the resetting call of `recordCall_reset_cex`
evaluated through `recordCall_reset_amended`. -/
theorem recordCall_reset_amended_witness :
    (recordCallWithGas (mkState polUnthrottled recStale) 200000 7 0 0 0).map
      (fun t => ((t.callRecords 0 0).lastCalled, (t.callRecords 0 0).dailyCount,
                 (t.callRecords 0 0).lastDayReset)) = some (200000, 1, 200000) :=
  recordCall_reset_amended (mkState polUnthrottled recStale) 200000 7 0 0 0
    (by decide) (by decide)

/-- Claim C8: `getRemainingGasBudget` clamps at zero —
`remaining = max 0 (gasBudget - cumulativeUsed)` over the integers — and
`recordCallWithGas` (the `account` operation) only ever adds to
`cumulativeUsed`: the target's counter grows by exactly `gasUsed` and no
target's counter ever decreases. -/
theorem remaining_clamped_and_usage_monotone :
    (∀ (s : BCState) (ca : Nat),
      (getRemainingGasBudget s ca : ℤ) =
        max 0 (((s.policies ca).gasBudget : ℤ) - (s.totalGasUsed ca : ℤ))) ∧
    (∀ (s : BCState) (now caller ca sel gas : Nat) (s2 : BCState),
      recordCallWithGas s now caller ca sel gas = some s2 →
      s2.totalGasUsed ca = s.totalGasUsed ca + gas ∧
      ∀ a, s.totalGasUsed a ≤ s2.totalGasUsed a) := by
  constructor
  · intro s ca
    unfold getRemainingGasBudget
    by_cases h : s.totalGasUsed ca < (s.policies ca).gasBudget
    · simp only [h, if_pos]
      omega
    · simp only [h, if_neg, if_false]
      omega
  · intro s now caller ca sel gas s2 h
    unfold recordCallWithGas at h
    by_cases ht : s.trustedCallers caller
    · simp only [ht, Bool.not_true, Bool.false_eq_true, if_false, Option.some.injEq] at h
      subst h
      refine ⟨by simp [appliedRecord], fun a => ?_⟩
      by_cases ha : a = ca <;> simp [appliedRecord, ha]
    · simp [ht] at h

/-- Witness for C8: concrete remaining-budget value and concrete usage
increase, both obtained through `remaining_clamped_and_usage_monotone`. -/
theorem remaining_clamped_and_usage_monotone_witness :
    (getRemainingGasBudget (mkState polUnthrottled recStale) 0 : ℤ) = max 0 (1000 - 0) ∧
    (recordCallWithGas (mkState polUnthrottled recStale) 100 7 0 0 5).map
      (fun t => t.totalGasUsed 0) = some 5 := by
  constructor
  · have h := remaining_clamped_and_usage_monotone.1 (mkState polUnthrottled recStale) 0
    simpa using h
  · rcases hrec : recordCallWithGas (mkState polUnthrottled recStale) 100 7 0 0 5 with _ | s2
    · exact absurd hrec (by simp [recordCallWithGas, mkState])
    · have h := (remaining_clamped_and_usage_monotone.2
        (mkState polUnthrottled recStale) 100 7 0 0 5 s2 hrec).1
      simp [h, mkState]

/-- The allowlist-update loop of `setPolicy` never turns an entry off:
whatever was `true` in the accumulator stays `true`. -/
theorem foldl_allow_preserve (methods : List Nat) (f : Nat → Bool) (m : Nat)
    (hf : f m = true) :
    methods.foldl (fun acc x => fun y => if y = x then true else acc y) f m = true := by
  induction methods generalizing f with
  | nil => exact hf
  | cons a rest ih =>
    apply ih
    by_cases hma : m = a <;> simp [hma, hf]

/-- The allowlist-update loop of `setPolicy` turns every listed entry on. -/
theorem foldl_allow_mem (methods : List Nat) (f : Nat → Bool) (m : Nat)
    (hm : m ∈ methods) :
    methods.foldl (fun acc x => fun y => if y = x then true else acc y) f m = true := by
  induction methods generalizing f with
  | nil => cases hm
  | cons a rest ih =>
    rcases List.mem_cons.mp hm with h | h
    · subst h
      exact foldl_allow_preserve rest _ m (by simp)
    · exact ih _ h

/-- Claim C7: `setPolicy` (called by a policy manager) has union semantics —
every method in `allowedMethods` becomes allowlisted, every previously
allowlisted method stays allowlisted — and it overwrites `gasBudget`,
`callRateLimit` and `dailyCallLimit` with the new values and marks the
policy active. -/
theorem setPolicy_union_semantics :
    ∀ (s : BCState) (caller ca : Nat) (allowedMethods : List Nat)
      (gasBudget callRateLimit dailyCallLimit : Nat) (s2 : BCState),
      setPolicy s caller ca allowedMethods gasBudget callRateLimit dailyCallLimit = some s2 →
      (∀ m ∈ allowedMethods, (s2.policies ca).methodAllowlist m = true) ∧
      (∀ m, (s.policies ca).methodAllowlist m = true →
        (s2.policies ca).methodAllowlist m = true) ∧
      (s2.policies ca).gasBudget = gasBudget ∧
      (s2.policies ca).callRateLimit = callRateLimit ∧
      (s2.policies ca).dailyCallLimit = dailyCallLimit ∧
      (s2.policies ca).isActive = true := by
  intro s caller ca allowedMethods gasBudget callRateLimit dailyCallLimit s2 h
  unfold setPolicy at h
  by_cases hmgr : s.policyManagers caller
  · simp only [hmgr, Bool.not_true, Bool.false_eq_true, if_false, Option.some.injEq] at h
    subst h
    refine ⟨fun m hm => ?_, fun m hf => ?_, by simp, by simp, by simp, by simp⟩
    · simpa using foldl_allow_mem allowedMethods _ m hm
    · simpa using foldl_allow_preserve allowedMethods _ m hf
  · simp [hmgr] at h

/-- Inactive policy whose allowlist holds exactly method 5 — the
pre-`setPolicy` state of the C7 witness. -/
def polOnlyFive : Policy :=
  { methodAllowlist := fun m => m == 5, gasBudget := 1000, callRateLimit := 0,
    dailyCallLimit := 1, isActive := false }

/-- Witness for C7: a concrete `setPolicy` call whose result keeps an old
allowlist entry, adds the new ones, and overwrites the numeric fields. -/
theorem setPolicy_union_semantics_witness :
    (setPolicy (mkState polOnlyFive recStale) 9 0 [1, 2] 77 8 9).map
      (fun t => ((t.policies 0).methodAllowlist 1, (t.policies 0).methodAllowlist 2,
                 (t.policies 0).methodAllowlist 5, (t.policies 0).gasBudget,
                 (t.policies 0).callRateLimit, (t.policies 0).dailyCallLimit,
                 (t.policies 0).isActive))
      = some (true, true, true, 77, 8, 9, true) := by
  rcases hrec : setPolicy (mkState polOnlyFive recStale) 9 0 [1, 2] 77 8 9 with _ | s2
  · exact absurd hrec (by simp [setPolicy, mkState])
  · have h := setPolicy_union_semantics _ 9 0 [1, 2] 77 8 9 s2 hrec
    have h1 := h.1 1 (by simp)
    have h2 := h.1 2 (by simp)
    have h5 := h.2.1 5 (by decide)
    simp [h1, h2, h5, h.2.2.1, h.2.2.2.1, h.2.2.2.2.1, h.2.2.2.2.2]

/-- Claim C9: with an active policy whose `callRateLimit` is 10 per minute
and a passing daily check, `checkRateLimit` evaluated at `t` seconds after
the last recorded call is `true` exactly when `t > 6` (so `false` for
`t < 6` and `false` at exactly `t = 6` — the strict inequality favours the
limiter); and `recordCallWithGas` is what stamps `lastCalled` with the
recording time. -/
theorem checkRateLimit_ten_per_minute_threshold :
    (∀ (s : BCState) (ca sel t0 t : Nat),
      (s.policies ca).isActive = true →
      (s.policies ca).callRateLimit = 10 →
      (s.callRecords ca sel).lastCalled = t0 →
      ((s.policies ca).dailyCallLimit = 0 ∨
        (s.callRecords ca sel).lastDayReset + oneDay ≤ t0 + t ∨
        (s.callRecords ca sel).dailyCount < (s.policies ca).dailyCallLimit) →
      (checkRateLimit s (t0 + t) ca sel = true ↔ 6 < t)) ∧
    (∀ (s : BCState) (now caller ca sel gas : Nat) (s2 : BCState),
      recordCallWithGas s now caller ca sel gas = some s2 →
      (s2.callRecords ca sel).lastCalled = now) := by
  constructor
  · intro s ca sel t0 t hact hrl hlast hdaily
    have h := (checkRateLimit_cases s (t0 + t) ca sel).2.2 hact (by omega)
    rw [h, hrl, hlast]
    have helapsed : t0 + t - t0 = t := by omega
    have hsix : (60 : Nat) / 10 = 6 := rfl
    rw [helapsed, hsix]
    exact ⟨fun hc => hc.1, fun ht => ⟨ht, hdaily⟩⟩
  · intro s now caller ca sel gas s2 h
    unfold recordCallWithGas at h
    by_cases ht : s.trustedCallers caller
    · simp only [ht, Bool.not_true, Bool.false_eq_true, if_false, Option.some.injEq] at h
      subst h
      by_cases hday : (s.callRecords ca sel).lastDayReset + oneDay ≤ now <;>
        simp [appliedRecord, updatedRecord, hday]
    · simp [ht] at h

/-- Active policy with `callRateLimit = 10` per minute and no daily limit,
everything allowlisted. -/
def polTenPerMinute : Policy :=
  { methodAllowlist := fun _ => true, gasBudget := 1000, callRateLimit := 10,
    dailyCallLimit := 0, isActive := true }

/-- Call record last stamped at time 40. -/
def recAtForty : CallRecord :=
  { lastCalled := 40, dailyCount := 1, lastDayReset := 0 }

/-- Witness for C9: at 3s, exactly 6s, and 7s after the last call,
`checkRateLimit` evaluates to `false`, `false`, `true`; and a concrete
record stamps `lastCalled`. -/
theorem checkRateLimit_ten_per_minute_threshold_witness :
    checkRateLimit (mkState polTenPerMinute recAtForty) (40 + 3) 0 0 = false ∧
    checkRateLimit (mkState polTenPerMinute recAtForty) (40 + 6) 0 0 = false ∧
    checkRateLimit (mkState polTenPerMinute recAtForty) (40 + 7) 0 0 = true ∧
    (recordCallWithGas (mkState polTenPerMinute recAtForty) 90 7 0 0 0).map
      (fun t => (t.callRecords 0 0).lastCalled) = some 90 := by
  have h3 := checkRateLimit_ten_per_minute_threshold.1 (mkState polTenPerMinute recAtForty)
    0 0 40 3 (by decide) (by decide) (by decide) (Or.inl (by decide))
  have h6 := checkRateLimit_ten_per_minute_threshold.1 (mkState polTenPerMinute recAtForty)
    0 0 40 6 (by decide) (by decide) (by decide) (Or.inl (by decide))
  have h7 := checkRateLimit_ten_per_minute_threshold.1 (mkState polTenPerMinute recAtForty)
    0 0 40 7 (by decide) (by decide) (by decide) (Or.inl (by decide))
  refine ⟨?_, ?_, h7.mpr (by decide), ?_⟩
  · exact Bool.eq_false_iff.mpr fun hc => absurd (h3.mp hc) (by decide)
  · exact Bool.eq_false_iff.mpr fun hc => absurd (h6.mp hc) (by decide)
  · rcases hrec : recordCallWithGas (mkState polTenPerMinute recAtForty) 90 7 0 0 0 with _ | s2
    · exact absurd hrec (by simp [recordCallWithGas, mkState])
    · have h := checkRateLimit_ten_per_minute_threshold.2
        (mkState polTenPerMinute recAtForty) 90 7 0 0 0 s2 hrec
      simp [h]

/-- Claim C2: each guarded terminal transition rejects outright — an EVM
revert, which by construction changes none of the state it touches — when
`isAllowed(self, thisOperation)` is false; and `deactivatePolicy` makes
`isAllowed` false for every operation of the target, so deactivation between
the non-terminal and terminal transition makes the terminal transition fail
even though the allowlist still contains the operation. -/
theorem guarded_terminal_veto :
    (∀ (w : World) (now duelId winner : Nat),
      isAllowed w.bc w.arenaAddr concludeDuelSelector = false →
      concludeDuel w now duelId winner =
        Except.error ("BehaviorController: Action not allowed")) ∧
    (∀ (w : World) (now sender questId : Nat),
      isAllowed w.bc w.questAddr completeQuestSelector = false →
      completeQuest w now sender questId =
        Except.error ("BehaviorController: Action not allowed")) ∧
    (∀ (s : BCState) (caller ca : Nat) (s2 : BCState),
      deactivatePolicy s caller ca = some s2 →
      ∀ sel, isAllowed s2 ca sel = false) := by
  refine ⟨fun w now duelId winner h => ?_, fun w now sender questId h => ?_,
    fun s caller ca s2 h sel => ?_⟩
  · simp [concludeDuel, h]
  · simp [completeQuest, h]
  · unfold deactivatePolicy at h
    by_cases hmgr : s.policyManagers caller
    · simp only [hmgr, Bool.not_true, Bool.false_eq_true, if_false, Option.some.injEq] at h
      subst h
      simp [isAllowed]
    · simp [hmgr] at h

/-- A duel in `ACTIVE` state (players 3 and 4, token 5, wager 10). -/
def duelFix : Duel :=
  { player1 := 3, player2 := 4, token := 5, wager := 10, winner := 0,
    state := DuelState.ACTIVE, createdAt := 0, concludedAt := 0 }

/-- A quest in `IN_PROGRESS` state (participant 4, token 5, reward 8). -/
def questFix : QuestData :=
  { creator := 3, participant := 4, token := 5, reward := 8,
    state := QuestState.IN_PROGRESS, createdAt := 0, completedAt := 0,
    metadataUri := "" }

/-- Concrete world: behaviour-controller state `bc`, every duel `duelFix`,
every quest `questFix`, every balance 100, Arena at address 20 and Quest at
address 21. -/
def mkWorld (bc : BCState) : World :=
  { bc := bc, duels := fun _ => duelFix, quests := fun _ => questFix,
    balances := fun _ _ => 100, arenaAddr := 20, questAddr := 21 }

/-- Witness for C2: with an inactive (though fully allowlisted at method 5)
policy both terminal transitions revert, and a concrete deactivation yields
`isAllowed = false`. -/
theorem guarded_terminal_veto_witness :
    concludeDuel (mkWorld (mkState polOnlyFive recAtForty)) 60 0 3 =
      Except.error ("BehaviorController: Action not allowed") ∧
    completeQuest (mkWorld (mkState polOnlyFive recAtForty)) 60 4 0 =
      Except.error ("BehaviorController: Action not allowed") ∧
    (deactivatePolicy (mkState polUnthrottled recAtForty) 9 0).map
      (fun t => isAllowed t 0 5) = some false := by
  refine ⟨?_, ?_, ?_⟩
  · exact guarded_terminal_veto.1 _ 60 0 3 (by decide)
  · exact guarded_terminal_veto.2.1 _ 60 4 0 (by decide)
  · rcases hrec : deactivatePolicy (mkState polUnthrottled recAtForty) 9 0 with _ | s2
    · exact absurd hrec (by simp [deactivatePolicy, mkState])
    · simp [guarded_terminal_veto.2.2 _ 9 0 s2 hrec 5]

/-- Claim C10: the embedded guard consults only `isAllowed` — with an
active, allowlisted policy and the entity holding the trusted-caller role,
`concludeDuel` on an `ACTIVE` duel (valid winner, escrow present) and
`completeQuest` on an `IN_PROGRESS` quest (called by its participant,
escrow present) both succeed and pay out, even while `checkRateLimit` is
`false` and the remaining gas budget is 0 for that very (target,
operation). -/
theorem embedded_guard_ignores_rate_and_budget :
    (∀ (w : World) (now duelId winner : Nat),
      isAllowed w.bc w.arenaAddr concludeDuelSelector = true →
      w.bc.trustedCallers w.arenaAddr = true →
      checkRateLimit w.bc now w.arenaAddr concludeDuelSelector = false →
      getRemainingGasBudget w.bc w.arenaAddr = 0 →
      (w.duels duelId).state = DuelState.ACTIVE →
      (winner = (w.duels duelId).player1 ∨ winner = (w.duels duelId).player2) →
      (w.duels duelId).wager * 2 ≤ w.balances (w.duels duelId).token w.arenaAddr →
      winner ≠ w.arenaAddr →
      (concludeDuel w now duelId winner).map
        (fun t => ((t.duels duelId).state, (t.duels duelId).winner,
                   t.balances (w.duels duelId).token winner)) =
        Except.ok (DuelState.CONCLUDED, winner,
          w.balances (w.duels duelId).token winner + (w.duels duelId).wager * 2)) ∧
    (∀ (w : World) (now sender questId : Nat),
      isAllowed w.bc w.questAddr completeQuestSelector = true →
      w.bc.trustedCallers w.questAddr = true →
      checkRateLimit w.bc now w.questAddr completeQuestSelector = false →
      getRemainingGasBudget w.bc w.questAddr = 0 →
      (w.quests questId).state = QuestState.IN_PROGRESS →
      sender = (w.quests questId).participant →
      (w.quests questId).reward ≤ w.balances (w.quests questId).token w.questAddr →
      (w.quests questId).participant ≠ w.questAddr →
      (completeQuest w now sender questId).map
        (fun t => ((t.quests questId).state,
                   t.balances (w.quests questId).token (w.quests questId).participant)) =
        Except.ok (QuestState.COMPLETED,
          w.balances (w.quests questId).token (w.quests questId).participant +
            (w.quests questId).reward)) := by
  constructor
  · intro w now duelId winner hAllow htrust hrate hbudget hstate hwin hbal hwna
    have hwinneg : ¬¬(winner = (w.duels duelId).player1 ∨ winner = (w.duels duelId).player2) :=
      not_not_intro hwin
    have hbalneg :
        ¬(w.balances (w.duels duelId).token w.arenaAddr < (w.duels duelId).wager * 2) := by
      omega
    simp [concludeDuel, recordCall, recordCallWithGas, erc20Transfer, hAllow, htrust,
      hstate, hwinneg, hbalneg, transferredBal, hwna, Except.map]
  · intro w now sender questId hAllow htrust hrate hbudget hstate hsender hbal hpna
    have hsneg : ¬(sender ≠ (w.quests questId).participant) := not_not_intro hsender
    have hbalneg :
        ¬(w.balances (w.quests questId).token w.questAddr < (w.quests questId).reward) := by
      omega
    simp [completeQuest, recordCall, recordCallWithGas, erc20Transfer, hAllow, htrust,
      hstate, hsneg, hbalneg, transferredBal, hpna, Except.map]

/-- Active policy with everything allowlisted but `gasBudget = 0` (remaining
budget 0) and `callRateLimit = 1` (so a call 10s after the last one is
minute-rate-limited). -/
def polBlocked : Policy :=
  { methodAllowlist := fun _ => true, gasBudget := 0, callRateLimit := 1,
    dailyCallLimit := 0, isActive := true }

/-- Witness for C10: in a concrete world where `checkRateLimit` is `false`
and the remaining budget is 0 for both entities, `concludeDuel` still
concludes and pays 120 to the winner, and `completeQuest` still completes
and pays 108 to the participant. -/
theorem embedded_guard_ignores_rate_and_budget_witness :
    checkRateLimit (mkState polBlocked recAtForty) 50 20 concludeDuelSelector = false ∧
    getRemainingGasBudget (mkState polBlocked recAtForty) 20 = 0 ∧
    (concludeDuel (mkWorld (mkState polBlocked recAtForty)) 50 0 3).map
      (fun t => ((t.duels 0).state, (t.duels 0).winner, t.balances 5 3)) =
      Except.ok (DuelState.CONCLUDED, 3, 120) ∧
    (completeQuest (mkWorld (mkState polBlocked recAtForty)) 50 4 0).map
      (fun t => ((t.quests 0).state, t.balances 5 4)) =
      Except.ok (QuestState.COMPLETED, 108) := by
  refine ⟨by decide, by decide, ?_, ?_⟩
  · have h := embedded_guard_ignores_rate_and_budget.1 (mkWorld (mkState polBlocked recAtForty))
      50 0 3 (by decide) (by decide) (by decide) (by decide) (by decide) (Or.inl (by decide))
      (by decide) (by decide)
    simpa [mkWorld, duelFix] using h
  · have h := embedded_guard_ignores_rate_and_budget.2 (mkWorld (mkState polBlocked recAtForty))
      50 4 0 (by decide) (by decide) (by decide) (by decide) (by decide) (by decide)
      (by decide) (by decide)
    simpa [mkWorld, questFix] using h

/-- Concrete `addresses.json` content: only the Arena contract, deployed at
address 0. -/
def addresses0 : String → Option Nat :=
  fun s => if s = "arena" then some 0 else none

/-- Concrete selector derivation: `concludeDuel` hashes to selector 1,
anything else to 99. -/
def selectorOf0 : String → Nat :=
  fun m => if m = "concludeDuel" then 1 else 99

/-- The plan `Arena_concludeDuel`. -/
def planArena : Plan :=
  { action := "Arena_concludeDuel" }

/-- Shared unfolding of `validateExecution` for a plan whose action name
resolves to `(ca, sel)`. -/
theorem validateExecution_resolved (bc : BCState) (now : Nat)
    (addresses : String → Option Nat) (selectorOf : String → Nat) (plan : Plan)
    (ca sel : Nat) (ha : plan.action ≠ "") (ho : plan.action ≠ "observe")
    (hp : parseActionName addresses selectorOf plan.action = some (ca, sel)) :
    validateExecution bc now addresses selectorOf plan =
      (if !(isAllowed bc ca sel) then
        { valid := false, reason := some notAllowedMsg }
      else if !(checkRateLimit bc now ca sel) then
        { valid := false, reason := some rateLimitedMsg }
      else if getRemainingGasBudget bc ca = 0 then
        { valid := false, reason := some gasExhaustedMsg }
      else { valid := true, reason := none }) := by
  have hcond : ¬(plan.action = "" ∨ plan.action = "observe") := by
    rintro (h | h)
    · exact ha h
    · exact ho h
  unfold validateExecution
  rw [if_neg hcond, hp]

/-- Claim C6: for a plan whose operation resolves, `validateExecution`
checks, in order, `isAllowed` (reason `notAllowedMsg`), `checkRateLimit`
(reason `rateLimitedMsg`), then `getRemainingGasBudget > 0` (reason
`gasExhaustedMsg`), the first failing check short-circuiting the rest —
each verdict is exactly characterised below — and on any validation failure
`execute` issues no external call and mutates nothing: its outcome is the
same for every submission function, signer and gas-measurement function,
and the returned world is the input world. -/
theorem validate_order_and_failure_is_pure :
    ∀ (bc : BCState) (now : Nat) (addresses : String → Option Nat)
      (selectorOf : String → Nat) (plan : Plan) (ca sel : Nat),
      plan.action ≠ "" → plan.action ≠ "observe" →
      parseActionName addresses selectorOf plan.action = some (ca, sel) →
      (validateExecution bc now addresses selectorOf plan =
          { valid := false, reason := some notAllowedMsg } ↔
        isAllowed bc ca sel = false) ∧
      (validateExecution bc now addresses selectorOf plan =
          { valid := false, reason := some rateLimitedMsg } ↔
        (isAllowed bc ca sel = true ∧ checkRateLimit bc now ca sel = false)) ∧
      (validateExecution bc now addresses selectorOf plan =
          { valid := false, reason := some gasExhaustedMsg } ↔
        (isAllowed bc ca sel = true ∧ checkRateLimit bc now ca sel = true ∧
          getRemainingGasBudget bc ca = 0)) ∧
      (validateExecution bc now addresses selectorOf plan =
          { valid := true, reason := none } ↔
        (isAllowed bc ca sel = true ∧ checkRateLimit bc now ca sel = true ∧
          getRemainingGasBudget bc ca ≠ 0)) ∧
      (∀ (w : World) (submitA submitB : Plan → World → Except String World)
         (agentA agentB : Nat) (mgA mgB : World → World → Nat),
        w.bc = bc →
        (validateExecution bc now addresses selectorOf plan).valid = false →
        execute addresses selectorOf submitA agentA mgA w now plan =
          execute addresses selectorOf submitB agentB mgB w now plan ∧
        (execute addresses selectorOf submitA agentA mgA w now plan).2 = w ∧
        (execute addresses selectorOf submitA agentA mgA w now plan).1.success = false) := by
  intro bc now addresses selectorOf plan ca sel ha ho hp
  have hval := validateExecution_resolved bc now addresses selectorOf plan ca sel ha ho hp
  refine ⟨?_, ?_, ?_, ?_, ?_⟩
  · cases hA : isAllowed bc ca sel <;>
      cases hR : checkRateLimit bc now ca sel <;>
      by_cases hG : getRemainingGasBudget bc ca = 0 <;>
      simp [hval, hA, hR, hG, notAllowedMsg, rateLimitedMsg, gasExhaustedMsg]
  · cases hA : isAllowed bc ca sel <;>
      cases hR : checkRateLimit bc now ca sel <;>
      by_cases hG : getRemainingGasBudget bc ca = 0 <;>
      simp [hval, hA, hR, hG, notAllowedMsg, rateLimitedMsg, gasExhaustedMsg]
  · cases hA : isAllowed bc ca sel <;>
      cases hR : checkRateLimit bc now ca sel <;>
      by_cases hG : getRemainingGasBudget bc ca = 0 <;>
      simp [hval, hA, hR, hG, notAllowedMsg, rateLimitedMsg, gasExhaustedMsg]
  · cases hA : isAllowed bc ca sel <;>
      cases hR : checkRateLimit bc now ca sel <;>
      by_cases hG : getRemainingGasBudget bc ca = 0 <;>
      simp [hval, hA, hR, hG, notAllowedMsg, rateLimitedMsg, gasExhaustedMsg]
  · intro w submitA submitB agentA agentB mgA mgB hw hvfalse
    rw [← hw] at hvfalse
    refine ⟨?_, ?_, ?_⟩ <;> simp [execute, ho, hvfalse]

/-- Witness for C6: with an inactive policy the resolved plan
`Arena_concludeDuel` fails validation with the not-allowlisted reason, and
`execute` returns the same failed outcome and untouched world for two
different submission functions. -/
theorem validate_order_and_failure_is_pure_witness :
    validateExecution (mkState polOnlyFive recAtForty) 50 addresses0 selectorOf0 planArena =
      { valid := false, reason := some notAllowedMsg } ∧
    execute addresses0 selectorOf0 (fun _ w => Except.ok w) 8
        (fun _ _ => 0) (mkWorld (mkState polOnlyFive recAtForty)) 50 planArena =
      execute addresses0 selectorOf0 (fun _ _ => Except.error ("boom")) 9
        (fun _ _ => 1) (mkWorld (mkState polOnlyFive recAtForty)) 50 planArena ∧
    (execute addresses0 selectorOf0 (fun _ w => Except.ok w) 8
        (fun _ _ => 0) (mkWorld (mkState polOnlyFive recAtForty)) 50 planArena).2 =
      mkWorld (mkState polOnlyFive recAtForty) := by
  have h := validate_order_and_failure_is_pure (mkState polOnlyFive recAtForty) 50
    addresses0 selectorOf0 planArena 0 1 (by decide) (by decide) (by decide)
  have h1 : validateExecution (mkState polOnlyFive recAtForty) 50 addresses0 selectorOf0
      planArena = { valid := false, reason := some notAllowedMsg } :=
    h.1.mpr (by decide)
  have h2 := h.2.2.2.2 (mkWorld (mkState polOnlyFive recAtForty))
    (fun _ w => Except.ok w) (fun _ _ => Except.error ("boom")) 8 9
    (fun _ _ => 0) (fun _ _ => 1) rfl (by rw [h1])
  exact ⟨h1, h2.1, h2.2.1⟩

/-- Active policy allowlisting selector 1, `callRateLimit = 1`,
`dailyCallLimit = 1`. -/
def polDailyOne : Policy :=
  { methodAllowlist := fun m => m == 1, gasBudget := 1000, callRateLimit := 1,
    dailyCallLimit := 1, isActive := true }

/-- Like `polDailyOne` but with no daily limit at all. -/
def polMinuteOnly : Policy :=
  { methodAllowlist := fun m => m == 1, gasBudget := 1000, callRateLimit := 1,
    dailyCallLimit := 0, isActive := true }

/-- Record of one call made at time 0 in the window started at 0. -/
def recOneCall : CallRecord :=
  { lastCalled := 0, dailyCount := 1, lastDayReset := 0 }

/-- Counterexample to claim C4: with `dailyCallLimit = 1` and one call
already recorded, a second call through the pipeline in the same 24h window
(at t = 100, past the minute spacing) is rejected — but with the generic
reason string `"Rate limit exceeded"`, byte-for-byte the same verdict a pure
minute-rate rejection (at t = 3, daily limit disabled) produces: the code
surfaces no distinct `DailyLimitExceeded` reason. -/
theorem daily_rejection_reason_cex :
    validateExecution (mkState polDailyOne recOneCall) 100 addresses0 selectorOf0 planArena =
      { valid := false, reason := some rateLimitedMsg } ∧
    validateExecution (mkState polMinuteOnly recOneCall) 3 addresses0 selectorOf0 planArena =
      { valid := false, reason := some rateLimitedMsg } ∧
    rateLimitedMsg = "Rate limit exceeded" := by
  decide

/-- Claim C4 as amended: with an active policy, the operation allowlisted,
`callRateLimit > 0` (required — with `callRateLimit = 0` the daily limit is
not enforced at all) and `dailyCallLimit = 1`, once a call is recorded in
the current window every further pipeline attempt inside that window is
rejected with the generic reason `"Rate limit exceeded"` (there is no
distinct daily-limit reason); after the window rolls over (and the minute
spacing and gas budget permit), the next call passes validation and its
record sets `dailyCount` to 1, not 0. -/
theorem daily_limit_one_amended :
    ∀ (s : BCState) (addresses : String → Option Nat) (selectorOf : String → Nat)
      (plan : Plan) (ca sel : Nat),
      plan.action ≠ "" → plan.action ≠ "observe" →
      parseActionName addresses selectorOf plan.action = some (ca, sel) →
      (s.policies ca).isActive = true →
      (s.policies ca).methodAllowlist sel = true →
      0 < (s.policies ca).callRateLimit →
      (s.policies ca).dailyCallLimit = 1 →
      1 ≤ (s.callRecords ca sel).dailyCount →
      (∀ now1, now1 < (s.callRecords ca sel).lastDayReset + oneDay →
        validateExecution s now1 addresses selectorOf plan =
          { valid := false, reason := some rateLimitedMsg }) ∧
      (∀ now2 caller gas,
        (s.callRecords ca sel).lastDayReset + oneDay ≤ now2 →
        60 / (s.policies ca).callRateLimit < now2 - (s.callRecords ca sel).lastCalled →
        getRemainingGasBudget s ca ≠ 0 →
        s.trustedCallers caller = true →
        validateExecution s now2 addresses selectorOf plan =
          { valid := true, reason := none } ∧
        (recordCallWithGas s now2 caller ca sel gas).map
          (fun t => (t.callRecords ca sel).dailyCount) = some 1) := by
  intro s addresses selectorOf plan ca sel ha ho hp hact hallow hrl hdl hcnt
  have hA : isAllowed s ca sel = true := by
    simp [isAllowed, hact, hallow]
  constructor
  · intro now1 hnow1
    have hRiff := (checkRateLimit_cases s now1 ca sel).2.2 hact hrl
    have hR : checkRateLimit s now1 ca sel = false := by
      rw [Bool.eq_false_iff]
      intro hc
      rcases (hRiff.mp hc).2 with h | h | h <;> omega
    rw [validateExecution_resolved s now1 addresses selectorOf plan ca sel ha ho hp]
    rw [hA, hR]
    simp
  · intro now2 caller gas hwin hmin hgas htrust
    have hR2 : checkRateLimit s now2 ca sel = true :=
      ((checkRateLimit_cases s now2 ca sel).2.2 hact hrl).mpr
        ⟨hmin, Or.inr (Or.inl hwin)⟩
    constructor
    · rw [validateExecution_resolved s now2 addresses selectorOf plan ca sel ha ho hp]
      rw [hA, hR2]
      simp [hgas]
    · simp [recordCallWithGas, appliedRecord, updatedRecord, htrust, hwin]

/-- Witness for the amended C4: on the concrete daily-exhausted state, the
in-window attempt at t = 100 is rejected with the generic rate-limit reason,
the attempt at t = 100000 (window rolled over) passes validation, and its
record sets `dailyCount = 1`. -/
theorem daily_limit_one_amended_witness :
    validateExecution (mkState polDailyOne recOneCall) 100 addresses0 selectorOf0 planArena =
      { valid := false, reason := some rateLimitedMsg } ∧
    validateExecution (mkState polDailyOne recOneCall) 100000 addresses0 selectorOf0 planArena =
      { valid := true, reason := none } ∧
    (recordCallWithGas (mkState polDailyOne recOneCall) 100000 7 0 1 0).map
      (fun t => (t.callRecords 0 1).dailyCount) = some 1 := by
  have h := daily_limit_one_amended (mkState polDailyOne recOneCall) addresses0 selectorOf0
    planArena 0 1 (by decide) (by decide) (by decide) (by decide) (by decide) (by decide)
    (by decide) (by decide)
  have h2 := h.2 100000 7 0 (by decide) (by decide) (by decide) (by decide)
  exact ⟨h.1 100 (by decide), h2.1, h2.2⟩

end NPC
